import Mathlib

/-!
Verification of the Technical Debt Index core of the Git-Helper repository
(`.github/scripts/advanced_features.py`): the `TechnicalDebtIndex` scoring
model and the `MetricDegradationDetector` trend-alert rules.

Python's float arithmetic is modelled with exact rationals (`ℚ`); every
numeric literal appearing in the source (0.30, 0.75, ...) is an exact
decimal rational here.  Python's `round(x, 2)` is modelled by `round2`
(round-half-up at two decimals); no value handled in this development falls
on a half-way tie, so the tie-breaking convention is immaterial.
-/

namespace GitHelper

/-- A metrics snapshot: the Python dict passed to `calculate_debt_index` and
`detect_degradation`.  An absent key is `none`; `dict.get(key, default)` is
`Option.getD`. -/
structure Metrics where
  code_quality_score : Option ℚ := none
  avg_complexity : Option ℚ := none
  test_coverage : Option ℚ := none
  dependency_vulnerabilities : Option ℚ := none
  code_duplication_percent : Option ℚ := none
deriving DecidableEq, Inhabited

/-- Python `round(x, 2)`: round to two decimal places. -/
def round2 (x : ℚ) : ℚ := round (x * 100) / 100

/-- `TechnicalDebtIndex._calculate_code_quality_debt`:
`max(0, min(100, (10 - score) * 10))`. -/
def calculate_code_quality_debt (score : ℚ) : ℚ :=
  max 0 (min 100 ((10 - score) * 10))

/-- `TechnicalDebtIndex._calculate_complexity_debt`: piecewise over the
branches `< 7`, `< 15`, else. -/
def calculate_complexity_debt (avg_complexity : ℚ) : ℚ :=
  if avg_complexity < 7 then 0
  else if avg_complexity < 15 then (avg_complexity - 7) * (50 / 8)
  else 50 + min 50 ((avg_complexity - 15) * 5)

/-- `TechnicalDebtIndex._calculate_coverage_debt`:
`max(0, (100 - coverage) * 0.75)`. -/
def calculate_coverage_debt (coverage : ℚ) : ℚ :=
  max 0 ((100 - coverage) * 0.75)

/-- `TechnicalDebtIndex._calculate_dependency_debt`:
`min(100, vulns_count * 10)`. -/
def calculate_dependency_debt (vulns_count : ℚ) : ℚ :=
  min 100 (vulns_count * 10)

/-- `TechnicalDebtIndex._calculate_duplication_debt`: piecewise over the
branches `< 5`, `< 15`, else. -/
def calculate_duplication_debt (duplication_percent : ℚ) : ℚ :=
  if duplication_percent < 5 then duplication_percent * 4
  else if duplication_percent < 15 then 20 + (duplication_percent - 5) * 5
  else 70 + min 30 ((duplication_percent - 15) * 2)

/-- `TechnicalDebtIndex._classify_severity`. -/
def classify_severity (debt_index : ℚ) : String :=
  if debt_index < 20 then "HEALTHY"
  else if debt_index < 40 then "ACCEPTABLE"
  else if debt_index < 60 then "WARNING"
  else if debt_index < 80 then "CRITICAL"
  else "EXTREME"

/-- One entry of the `components` dict: `{score, metric, weight}`. -/
structure Component where
  score : ℚ
  metric : ℚ
  weight : ℚ
deriving DecidableEq

/-- The `components` dict built by `calculate_debt_index`, with its five
keys in Python dict insertion order: code_quality, complexity,
test_coverage, dependencies, duplication. -/
structure Components where
  code_quality : Component
  complexity : Component
  test_coverage : Component
  dependencies : Component
  duplication : Component
deriving DecidableEq

/-- One recommendation record `{priority, area, issue, action, tool}`.  The
`issue` string interpolates the raw metric value into fixed template text;
it is modelled by the raw metric value itself (field `metric`), since the
template is constant per component. -/
structure Recommendation where
  priority : String
  area : String
  metric : ℚ
  action : String
  tool : String
deriving DecidableEq

/-- The recommendation record appended for `code_quality` (priority HIGH). -/
def code_quality_recommendation (metric : ℚ) : Recommendation :=
  { priority := "HIGH", area := "Code Quality", metric := metric,
    action := "Review pylint warnings and refactor the most problematic files",
    tool := "pylint" }

/-- The recommendation record appended for `complexity` (priority HIGH). -/
def complexity_recommendation (metric : ℚ) : Recommendation :=
  { priority := "HIGH", area := "Complexity", metric := metric,
    action := "Break down complex functions into smaller, testable units",
    tool := "radon" }

/-- The recommendation record appended for `test_coverage` (priority HIGH). -/
def test_coverage_recommendation (metric : ℚ) : Recommendation :=
  { priority := "HIGH", area := "Test Coverage", metric := metric,
    action := "Write tests for uncovered code paths, focus on critical paths",
    tool := "pytest" }

/-- The recommendation record appended for `dependencies` (priority
CRITICAL). -/
def dependencies_recommendation (metric : ℚ) : Recommendation :=
  { priority := "CRITICAL", area := "Security", metric := metric,
    action := "Update packages to patched versions immediately",
    tool := "pip-audit/safety" }

/-- The recommendation record appended for `duplication` (priority MEDIUM). -/
def duplication_recommendation (metric : ℚ) : Recommendation :=
  { priority := "MEDIUM", area := "Code Duplication", metric := metric,
    action := "Extract common code into reusable functions/modules",
    tool := "radon" }

/-- `TechnicalDebtIndex._generate_recommendations`: one record per component
whose debt score exceeds 60, appended in dict iteration order, then
`sorted(recommendations, key=lambda x: x['priority'] == 'CRITICAL',
reverse=True)`.  Python's sort is stable also under `reverse=True`, so on a
boolean key it is exactly the stable partition: entries whose key is true
first (in original order), then the rest (in original order). -/
def generate_recommendations (components : Components) : List Recommendation :=
  let recommendations : List Recommendation :=
    (if components.code_quality.score > 60 then
      [code_quality_recommendation components.code_quality.metric] else [])
    ++ (if components.complexity.score > 60 then
      [complexity_recommendation components.complexity.metric] else [])
    ++ (if components.test_coverage.score > 60 then
      [test_coverage_recommendation components.test_coverage.metric] else [])
    ++ (if components.dependencies.score > 60 then
      [dependencies_recommendation components.dependencies.metric] else [])
    ++ (if components.duplication.score > 60 then
      [duplication_recommendation components.duplication.metric] else [])
  recommendations.filter (fun x => x.priority == "CRITICAL")
    ++ recommendations.filter (fun x => !(x.priority == "CRITICAL"))

/-- The report returned by `calculate_debt_index`.  The `timestamp` field
(wall-clock time) is outside the pure model and omitted. -/
structure DebtReport where
  total_index : ℚ
  components : Components
  severity : String
  recommendations : List Recommendation
deriving DecidableEq

/-- `TechnicalDebtIndex.calculate_debt_index`: defaults per missing key
(5.0, 7.0, 50.0, 0, 5.0), the five component records with their fixed
weights, the weighted sum, the rounded total, the severity of the
unrounded total, and the recommendations. -/
def calculate_debt_index (current_metrics : Metrics) : DebtReport :=
  let code_quality_score := current_metrics.code_quality_score.getD 5.0
  let code_quality_debt := calculate_code_quality_debt code_quality_score
  let avg_complexity := current_metrics.avg_complexity.getD 7.0
  let complexity_debt := calculate_complexity_debt avg_complexity
  let test_coverage := current_metrics.test_coverage.getD 50.0
  let coverage_debt := calculate_coverage_debt test_coverage
  let dep_vulns := current_metrics.dependency_vulnerabilities.getD 0
  let dep_debt := calculate_dependency_debt dep_vulns
  let duplication := current_metrics.code_duplication_percent.getD 5.0
  let dup_debt := calculate_duplication_debt duplication
  let components : Components :=
    { code_quality := ⟨code_quality_debt, code_quality_score, 0.30⟩
      complexity := ⟨complexity_debt, avg_complexity, 0.25⟩
      test_coverage := ⟨coverage_debt, test_coverage, 0.20⟩
      dependencies := ⟨dep_debt, dep_vulns, 0.15⟩
      duplication := ⟨dup_debt, duplication, 0.10⟩ }
  let total_debt :=
    components.code_quality.score * components.code_quality.weight
    + components.complexity.score * components.complexity.weight
    + components.test_coverage.score * components.test_coverage.weight
    + components.dependencies.score * components.dependencies.weight
    + components.duplication.score * components.duplication.weight
  { total_index := round2 total_debt
    components := components
    severity := classify_severity total_debt
    recommendations := generate_recommendations components }

/-- One degradation alert.  The templated `message` string interpolates
only `previous`/`current`/`change`, which are already fields, so it is not
modelled separately. -/
structure Alert where
  type : String
  severity : String
  metric : String
  previous : ℚ
  current : ℚ
  change : ℚ
  action : String
deriving DecidableEq

/-- `MetricDegradationDetector.detect_degradation`, with the history list
(read from the JSON file in the source) taken as an explicit argument.
`previous = history[-2] if len(history) > 1 else history[0]`; under the
`len(history) < 2` guard the second arm is dead, and `history[-2]` is
`history[len - 2]`. -/
def detect_degradation (history : List Metrics) (current_metrics : Metrics) :
    List Alert :=
  if history.length < 2 then []
  else
    let previous := history.getD (history.length - 2) default
    let current := current_metrics
    let prev_quality := previous.code_quality_score.getD 5.0
    let curr_quality := current.code_quality_score.getD 5.0
    let quality_alerts :=
      if curr_quality < prev_quality - 0.5 then
        [{ type := "QUALITY_DECLINE", severity := "WARNING",
           metric := "Code Quality",
           previous := prev_quality, current := curr_quality,
           change := round2 (curr_quality - prev_quality),
           action := "Review recent changes and address style/complexity issues" }]
      else []
    let prev_complexity := previous.avg_complexity.getD 7.0
    let curr_complexity := current.avg_complexity.getD 7.0
    let complexity_alerts :=
      if curr_complexity > prev_complexity + 1.0 then
        [{ type := "COMPLEXITY_INCREASE", severity := "WARNING",
           metric := "Complexity",
           previous := prev_complexity, current := curr_complexity,
           change := round2 (curr_complexity - prev_complexity),
           action := "Refactor complex functions before adding more logic" }]
      else []
    let prev_coverage := previous.test_coverage.getD 50.0
    let curr_coverage := current.test_coverage.getD 50.0
    let coverage_alerts :=
      if curr_coverage < prev_coverage - 2.0 then
        [{ type := "COVERAGE_DROP", severity := "MEDIUM",
           metric := "Test Coverage",
           previous := prev_coverage, current := curr_coverage,
           change := round2 (curr_coverage - prev_coverage),
           action := "Add tests for new code before committing" }]
      else []
    let prev_vulns := previous.dependency_vulnerabilities.getD 0
    let curr_vulns := current.dependency_vulnerabilities.getD 0
    let vuln_alerts :=
      if curr_vulns > prev_vulns then
        [{ type := "NEW_VULNERABILITIES", severity := "CRITICAL",
           metric := "Security",
           previous := prev_vulns, current := curr_vulns,
           change := curr_vulns - prev_vulns,
           action := "Update dependencies immediately to patch known vulnerabilities" }]
      else []
    quality_alerts ++ complexity_alerts ++ coverage_alerts ++ vuln_alerts

/-- The empty snapshot: a metrics dict with every key absent. -/
def empty_metrics : Metrics := ⟨none, none, none, none, none⟩

/-- A two-entry history whose "previous" entry has `test_coverage = 80`. -/
def hist_cov80 : List Metrics :=
  [⟨none, none, some 80, none, none⟩, ⟨none, none, some 80, none, none⟩]

/-- A two-entry history whose "previous" entry has
`dependency_vulnerabilities = 0`. -/
def hist_vuln0 : List Metrics :=
  [⟨none, none, none, some 0, none⟩, ⟨none, none, none, some 0, none⟩]

/-! ## Helper lemmas -/

/-- `generate_recommendations` explicitly: the CRITICAL dependencies record
(when its debt exceeds 60) comes first, then the non-critical records in
dict iteration order. -/
theorem generate_recommendations_eq (cs : Components) :
    generate_recommendations cs =
      (if cs.dependencies.score > 60 then
        [dependencies_recommendation cs.dependencies.metric] else [])
      ++ (if cs.code_quality.score > 60 then
        [code_quality_recommendation cs.code_quality.metric] else [])
      ++ (if cs.complexity.score > 60 then
        [complexity_recommendation cs.complexity.metric] else [])
      ++ (if cs.test_coverage.score > 60 then
        [test_coverage_recommendation cs.test_coverage.metric] else [])
      ++ (if cs.duplication.score > 60 then
        [duplication_recommendation cs.duplication.metric] else []) := by
  unfold generate_recommendations
  split_ifs <;>
    simp [code_quality_recommendation, complexity_recommendation,
      test_coverage_recommendation, dependencies_recommendation,
      duplication_recommendation, List.filter]

/-- Rounding to two decimals is monotone. -/
theorem round2_mono {x y : ℚ} (h : x ≤ y) : round2 x ≤ round2 y := by
  unfold round2
  have h1 : round (x * 100) ≤ round (y * 100) := by
    rw [round_eq, round_eq]
    exact Int.floor_le_floor (by linarith)
  have h2 : ((round (x * 100) : ℤ) : ℚ) ≤ ((round (y * 100) : ℤ) : ℚ) := by
    exact_mod_cast h1
  gcongr

/-! ## Claims -/

/-- C1: for every snapshot with `code_quality_score = 0`,
`avg_complexity ≥ 25`, `test_coverage = 0`,
`dependency_vulnerabilities ≥ 10` and `code_duplication_percent ≥ 30`,
`calculate_debt_index` gives component debts of 100 for code quality,
complexity, dependencies and duplication, a coverage debt of exactly 75, a
total index of exactly 95.0, and severity "EXTREME". -/
theorem C1_all_worst_snapshot (m : Metrics) (c v d : ℚ)
    (hq : m.code_quality_score = some 0)
    (hc : m.avg_complexity = some c) (hc2 : 25 ≤ c)
    (ht : m.test_coverage = some 0)
    (hv : m.dependency_vulnerabilities = some v) (hv2 : 10 ≤ v)
    (hd : m.code_duplication_percent = some d) (hd2 : 30 ≤ d) :
    (calculate_debt_index m).components.code_quality.score = 100 ∧
    (calculate_debt_index m).components.complexity.score = 100 ∧
    (calculate_debt_index m).components.test_coverage.score = 75 ∧
    (calculate_debt_index m).components.dependencies.score = 100 ∧
    (calculate_debt_index m).components.duplication.score = 100 ∧
    (calculate_debt_index m).total_index = 95 ∧
    (calculate_debt_index m).severity = "EXTREME" := by
  have hcd : calculate_complexity_debt c = 100 := by
    rw [calculate_complexity_debt, if_neg (by push_neg; linarith),
      if_neg (by push_neg; linarith), min_eq_left (by linarith)]
    norm_num
  have hdd : calculate_dependency_debt v = 100 := by
    rw [calculate_dependency_debt, min_eq_left (by linarith)]
  have hdup : calculate_duplication_debt d = 100 := by
    rw [calculate_duplication_debt, if_neg (by push_neg; linarith),
      if_neg (by push_neg; linarith), min_eq_left (by linarith)]
    norm_num
  simp only [calculate_debt_index, hq, hc, ht, hv, hd, Option.getD_some, hcd, hdd, hdup]
  norm_num [calculate_code_quality_debt, calculate_coverage_debt,
    classify_severity, round2, round_eq]

/-- Witness for C1 at the concrete all-worst snapshot
`(0, 25, 0, 10, 30)`. -/
theorem C1_all_worst_snapshot_witness :
    (calculate_debt_index ⟨some 0, some 25, some 0, some 10, some 30⟩).total_index = 95 ∧
    (calculate_debt_index ⟨some 0, some 25, some 0, some 10, some 30⟩).severity = "EXTREME" :=
  ⟨(C1_all_worst_snapshot ⟨some 0, some 25, some 0, some 10, some 30⟩ 25 10 30
      rfl rfl (by norm_num) rfl rfl (by norm_num) rfl (by norm_num)).2.2.2.2.2.1,
   (C1_all_worst_snapshot ⟨some 0, some 25, some 0, some 10, some 30⟩ 25 10 30
      rfl rfl (by norm_num) rfl rfl (by norm_num) rfl (by norm_num)).2.2.2.2.2.2⟩

/-- C2 counterexample: the claim says every per-component debt function is
clamped to [0,100] for every input, but negative inputs escape the
interval: duplication debt at −1 is −4, coverage debt at −40 is 105, and
dependency debt at −1 is −10. -/
theorem C2_debt_clamped_counterexample :
    (calculate_duplication_debt (-1) = -4 ∧ ¬ 0 ≤ calculate_duplication_debt (-1)) ∧
    (calculate_coverage_debt (-40) = 105 ∧ ¬ calculate_coverage_debt (-40) ≤ 100) ∧
    (calculate_dependency_debt (-1) = -10 ∧ ¬ 0 ≤ calculate_dependency_debt (-1)) := by
  norm_num [calculate_duplication_debt, calculate_coverage_debt,
    calculate_dependency_debt]

/-- C2 amended: the code-quality and complexity debt functions land in
[0,100] for every input; the coverage, dependency and duplication debt
functions land in [0,100] for every non-negative input. -/
theorem C2_debt_clamped_amended (score complexity coverage vulns dup : ℚ)
    (hcov : 0 ≤ coverage) (hv : 0 ≤ vulns) (hd : 0 ≤ dup) :
    (0 ≤ calculate_code_quality_debt score ∧ calculate_code_quality_debt score ≤ 100) ∧
    (0 ≤ calculate_complexity_debt complexity ∧ calculate_complexity_debt complexity ≤ 100) ∧
    (0 ≤ calculate_coverage_debt coverage ∧ calculate_coverage_debt coverage ≤ 100) ∧
    (0 ≤ calculate_dependency_debt vulns ∧ calculate_dependency_debt vulns ≤ 100) ∧
    (0 ≤ calculate_duplication_debt dup ∧ calculate_duplication_debt dup ≤ 100) := by
  refine ⟨⟨?_, ?_⟩, ⟨?_, ?_⟩, ⟨?_, ?_⟩, ⟨?_, ?_⟩, ⟨?_, ?_⟩⟩ <;>
    simp only [calculate_code_quality_debt, calculate_complexity_debt,
      calculate_coverage_debt, calculate_dependency_debt,
      calculate_duplication_debt, max_def, min_def] <;>
    split_ifs <;> linarith

/-- Witness for C2 amended at the concrete inputs `(5, 8, 50, 3, 6)`. -/
theorem C2_debt_clamped_amended_witness :
    (0 ≤ calculate_code_quality_debt 5 ∧ calculate_code_quality_debt 5 ≤ 100) ∧
    (0 ≤ calculate_complexity_debt 8 ∧ calculate_complexity_debt 8 ≤ 100) ∧
    (0 ≤ calculate_coverage_debt 50 ∧ calculate_coverage_debt 50 ≤ 100) ∧
    (0 ≤ calculate_dependency_debt 3 ∧ calculate_dependency_debt 3 ≤ 100) ∧
    (0 ≤ calculate_duplication_debt 6 ∧ calculate_duplication_debt 6 ≤ 100) :=
  C2_debt_clamped_amended 5 8 50 3 6 (by norm_num) (by norm_num) (by norm_num)

/-- C4: for every current snapshot, `detect_degradation` returns an empty
alert list whenever the history has fewer than 2 entries. -/
theorem C4_short_history_no_alerts (history : List Metrics) (current : Metrics)
    (h : history.length < 2) : detect_degradation history current = [] := by
  rw [detect_degradation, if_pos h]

/-- Witness for C4 on the empty history and on a one-entry history. -/
theorem C4_short_history_no_alerts_witness :
    (([] : List Metrics).length < 2 ∧ detect_degradation [] empty_metrics = []) ∧
    ([empty_metrics].length < 2 ∧ detect_degradation [empty_metrics] empty_metrics = []) :=
  ⟨⟨by norm_num, C4_short_history_no_alerts [] empty_metrics (by norm_num)⟩,
   ⟨by norm_num, C4_short_history_no_alerts [empty_metrics] empty_metrics (by norm_num)⟩⟩

/-- C8: for every snapshot with all five metrics at their ideal values
(quality 10, complexity 0, coverage 100, vulnerabilities 0, duplication 0),
`calculate_debt_index` returns total index 0.0 and severity "HEALTHY". -/
theorem C8_ideal_snapshot (m : Metrics)
    (hq : m.code_quality_score = some 10) (hc : m.avg_complexity = some 0)
    (ht : m.test_coverage = some 100) (hv : m.dependency_vulnerabilities = some 0)
    (hd : m.code_duplication_percent = some 0) :
    (calculate_debt_index m).total_index = 0 ∧
    (calculate_debt_index m).severity = "HEALTHY" := by
  simp only [calculate_debt_index, hq, hc, ht, hv, hd, Option.getD_some]
  norm_num [calculate_code_quality_debt, calculate_complexity_debt,
    calculate_coverage_debt, calculate_dependency_debt,
    calculate_duplication_debt, classify_severity, round2, round_eq]

/-- Witness for C8 at the concrete ideal snapshot. -/
theorem C8_ideal_snapshot_witness :
    (calculate_debt_index ⟨some 10, some 0, some 100, some 0, some 0⟩).total_index = 0 ∧
    (calculate_debt_index ⟨some 10, some 0, some 100, some 0, some 0⟩).severity = "HEALTHY" :=
  C8_ideal_snapshot ⟨some 10, some 0, some 100, some 0, some 0⟩ rfl rfl rfl rfl rfl

/-- C9: severity is classified from the unrounded weighted sum while the
total index is reported rounded to two decimals; at quality 3.334 with the
other four metrics ideal the unrounded sum is 19.998, so the report says
total index 20.0 with severity "HEALTHY" although the severity table
assigns 20 to "ACCEPTABLE". -/
theorem C9_round_severity_disagreement :
    (calculate_debt_index ⟨some 3.334, some 0, some 100, some 0, some 0⟩).total_index = 20 ∧
    (calculate_debt_index ⟨some 3.334, some 0, some 100, some 0, some 0⟩).severity = "HEALTHY" ∧
    classify_severity 20 = "ACCEPTABLE" := by
  norm_num [calculate_debt_index, calculate_code_quality_debt,
    calculate_complexity_debt, calculate_coverage_debt,
    calculate_dependency_debt, calculate_duplication_debt,
    classify_severity, round2, round_eq]

/-- C10: the empty snapshot takes every documented default
(5.0, 7.0, 50.0, 0, 5.0); `calculate_debt_index` returns total index 24.5,
severity "ACCEPTABLE", an empty recommendations list, and component debts
50, 0, 37.5, 0 and 20. -/
theorem C10_empty_snapshot_defaults :
    (calculate_debt_index empty_metrics).total_index = 24.5 ∧
    (calculate_debt_index empty_metrics).severity = "ACCEPTABLE" ∧
    (calculate_debt_index empty_metrics).recommendations = [] ∧
    (calculate_debt_index empty_metrics).components.code_quality.score = 50 ∧
    (calculate_debt_index empty_metrics).components.complexity.score = 0 ∧
    (calculate_debt_index empty_metrics).components.test_coverage.score = 37.5 ∧
    (calculate_debt_index empty_metrics).components.dependencies.score = 0 ∧
    (calculate_debt_index empty_metrics).components.duplication.score = 20 := by
  norm_num [empty_metrics, calculate_debt_index, calculate_code_quality_debt,
    calculate_complexity_debt, calculate_coverage_debt,
    calculate_dependency_debt, calculate_duplication_debt,
    classify_severity, generate_recommendations, round2, round_eq]

/-- C3: the recommendations list holds exactly one record per component
whose debt exceeds 60, with fixed priorities (dependencies CRITICAL,
duplication MEDIUM, the other three HIGH); the CRITICAL dependencies
record (the only possible CRITICAL one) comes first and the non-critical
records keep the iteration order code_quality, complexity, test_coverage,
duplication; and whenever `dependency_vulnerabilities = 10` the CRITICAL
dependencies record is present and heads the list. -/
theorem C3_recommendations_order (m : Metrics) :
    ((calculate_debt_index m).recommendations =
      (if (calculate_debt_index m).components.dependencies.score > 60 then
        [dependencies_recommendation (calculate_debt_index m).components.dependencies.metric]
       else [])
      ++ (if (calculate_debt_index m).components.code_quality.score > 60 then
        [code_quality_recommendation (calculate_debt_index m).components.code_quality.metric]
       else [])
      ++ (if (calculate_debt_index m).components.complexity.score > 60 then
        [complexity_recommendation (calculate_debt_index m).components.complexity.metric]
       else [])
      ++ (if (calculate_debt_index m).components.test_coverage.score > 60 then
        [test_coverage_recommendation (calculate_debt_index m).components.test_coverage.metric]
       else [])
      ++ (if (calculate_debt_index m).components.duplication.score > 60 then
        [duplication_recommendation (calculate_debt_index m).components.duplication.metric]
       else []))
    ∧ (m.dependency_vulnerabilities = some 10 →
        (calculate_debt_index m).recommendations.head? =
          some (dependencies_recommendation 10)) := by
  constructor
  · simp only [calculate_debt_index]
    exact generate_recommendations_eq _
  · intro h
    have h10 : calculate_dependency_debt 10 = 100 := by
      norm_num [calculate_dependency_debt]
    simp only [calculate_debt_index, h, Option.getD_some]
    rw [generate_recommendations_eq]
    norm_num [h10]

/-- Witness for C3 at the snapshot with `dependency_vulnerabilities = 10`
and every other key absent. -/
theorem C3_recommendations_order_witness :
    (calculate_debt_index ⟨none, none, none, some 10, none⟩).recommendations.head? =
      some (dependencies_recommendation 10) :=
  (C3_recommendations_order ⟨none, none, none, some 10, none⟩).2 rfl

/-- C5: for every history of length at least 2, a COVERAGE_DROP alert
(severity MEDIUM, change rounded to two decimals) is produced exactly when
the current coverage is below the previous coverage minus 2.0, and exactly
one such alert is produced then. -/
theorem C5_coverage_drop_margin (history : List Metrics) (current : Metrics)
    (h : 2 ≤ history.length) :
    (detect_degradation history current).filter (fun a => a.type == "COVERAGE_DROP") =
      (let previous := history.getD (history.length - 2) default
       let prev_coverage := previous.test_coverage.getD 50.0
       let curr_coverage := current.test_coverage.getD 50.0
       if curr_coverage < prev_coverage - 2.0 then
         [{ type := "COVERAGE_DROP", severity := "MEDIUM",
            metric := "Test Coverage",
            previous := prev_coverage, current := curr_coverage,
            change := round2 (curr_coverage - prev_coverage),
            action := "Add tests for new code before committing" }]
       else []) := by
  have h2 : ¬ history.length < 2 := by omega
  simp only [detect_degradation, h2, if_false]
  split_ifs <;> simp_all

/-- Witness for C5 on the literal boundary vectors: previous coverage 80
with current 77.9 fires exactly one alert with change −2.1, and with
current 78.5 no alert fires. -/
theorem C5_coverage_drop_margin_witness :
    (2 ≤ hist_cov80.length) ∧
    ((detect_degradation hist_cov80 ⟨none, none, some 77.9, none, none⟩).filter
        (fun a => a.type == "COVERAGE_DROP") =
      [{ type := "COVERAGE_DROP", severity := "MEDIUM", metric := "Test Coverage",
         previous := 80, current := 77.9, change := -2.1,
         action := "Add tests for new code before committing" }]) ∧
    ((detect_degradation hist_cov80 ⟨none, none, some 78.5, none, none⟩).filter
        (fun a => a.type == "COVERAGE_DROP") = []) := by
  refine ⟨by norm_num [hist_cov80], ?_, ?_⟩
  · rw [C5_coverage_drop_margin hist_cov80 _ (by norm_num [hist_cov80])]
    norm_num [hist_cov80, round2, round_eq]
  · rw [C5_coverage_drop_margin hist_cov80 _ (by norm_num [hist_cov80])]
    norm_num [hist_cov80]

/-- C6: increasing `avg_complexity` while holding the other four fields
fixed never decreases the complexity debt nor the reported total index. -/
theorem C6_complexity_monotone (m : Metrics) (c₁ c₂ : ℚ) (h : c₁ ≤ c₂) :
    calculate_complexity_debt c₁ ≤ calculate_complexity_debt c₂ ∧
    (calculate_debt_index { m with avg_complexity := some c₁ }).total_index ≤
      (calculate_debt_index { m with avg_complexity := some c₂ }).total_index := by
  have hmono : calculate_complexity_debt c₁ ≤ calculate_complexity_debt c₂ := by
    simp only [calculate_complexity_debt, min_def]
    split_ifs <;> linarith
  refine ⟨hmono, ?_⟩
  obtain ⟨q, c, t, v, d⟩ := m
  simp only [calculate_debt_index, Option.getD_some]
  exact round2_mono (by nlinarith [hmono])

/-- Witness for C6 at the empty snapshot with complexities 7 and 20. -/
theorem C6_complexity_monotone_witness :
    calculate_complexity_debt 7 ≤ calculate_complexity_debt 20 ∧
    (calculate_debt_index { empty_metrics with avg_complexity := some 7 }).total_index ≤
      (calculate_debt_index { empty_metrics with avg_complexity := some 20 }).total_index :=
  C6_complexity_monotone empty_metrics 7 20 (by norm_num)

/-- C7: for every history of length at least 2, a NEW_VULNERABILITIES
alert (severity CRITICAL, unrounded change `current − previous`) is
produced exactly when the current vulnerability count exceeds the previous
one — a raw comparison with no margin — and exactly one such alert is
produced then. -/
theorem C7_new_vulnerabilities_raw (history : List Metrics) (current : Metrics)
    (h : 2 ≤ history.length) :
    (detect_degradation history current).filter (fun a => a.type == "NEW_VULNERABILITIES") =
      (let previous := history.getD (history.length - 2) default
       let prev_vulns := previous.dependency_vulnerabilities.getD 0
       let curr_vulns := current.dependency_vulnerabilities.getD 0
       if curr_vulns > prev_vulns then
         [{ type := "NEW_VULNERABILITIES", severity := "CRITICAL",
            metric := "Security",
            previous := prev_vulns, current := curr_vulns,
            change := curr_vulns - prev_vulns,
            action := "Update dependencies immediately to patch known vulnerabilities" }]
       else []) := by
  have h2 : ¬ history.length < 2 := by omega
  simp only [detect_degradation, h2, if_false]
  split_ifs <;> simp_all

/-- Witness for C7 on the literal vector: previous vulnerabilities 0 with
current 1 fires exactly one CRITICAL alert with change 1. -/
theorem C7_new_vulnerabilities_raw_witness :
    (2 ≤ hist_vuln0.length) ∧
    ((detect_degradation hist_vuln0 ⟨none, none, none, some 1, none⟩).filter
        (fun a => a.type == "NEW_VULNERABILITIES") =
      [{ type := "NEW_VULNERABILITIES", severity := "CRITICAL", metric := "Security",
         previous := 0, current := 1, change := 1,
         action := "Update dependencies immediately to patch known vulnerabilities" }]) := by
  refine ⟨by norm_num [hist_vuln0], ?_⟩
  rw [C7_new_vulnerabilities_raw hist_vuln0 _ (by norm_num [hist_vuln0])]
  norm_num [hist_vuln0]

end GitHelper
